import Mathlib

/-!
Shallow embedding of the logical core of the attendance dashboard
(src/mini-thesis-dashboard.py): the `load_data` reader pipeline, the
TTL-cached load wrapper, the parity-based occupancy estimator of the
Time-In/Time-Out column, and (modelled from the spec, since it lives in
sibling scripts of the repository that are not under src/) the
change-driven marker cache.

Machine timestamps are abstracted to `Int` instants; the permissive
third-party parsers (`pd.to_datetime`, `pd.to_numeric`) are library
calls, modelled by cells that either carry a parseable value or not.
-/

namespace Attendance

/-- Raw value of a Timestamp cell.  `pd.to_datetime(x, errors="coerce")`
is external library code; we model its input as either carrying a
parseable instant (abstracted to an integer time value) or being
unparseable. -/
inductive TsCell where
  | valid (t : Int)
  | invalid
deriving DecidableEq

/-- Model of `pd.to_datetime(x, errors="coerce")` applied to one cell:
`none` stands for NaT (dropped later by `dropna`). -/
def to_datetime : TsCell → Option Int
  | TsCell.valid t => some t
  | TsCell.invalid => none

/-- Raw value of a Gate No. cell: a numeric value, non-numeric text, or
a missing cell. -/
inductive GateCell where
  | num (n : Int)
  | nonNumeric
  | missing
deriving DecidableEq

/-- Model of `pd.to_numeric(x, errors="coerce")` applied to one cell:
`none` stands for NaN. -/
def to_numeric : GateCell → Option Int
  | GateCell.num n => some n
  | GateCell.nonNumeric => none
  | GateCell.missing => none

/-- One raw sheet row restricted to the four required columns, as
`conn.read` delivers it: a missing cell is `none` (pandas NaN). -/
structure RawRow where
  timestamp : TsCell
  gate : GateCell
  ident : Option String
  name : Option String
deriving DecidableEq

/-- One processed attendance event: a row of the `processed_df`
DataFrame returned by `load_data`.  The Name column is untouched by the
pipeline, so a missing Name stays missing (`none`). -/
structure Event where
  timestamp : Int
  gate : Int
  ident : String
  name : Option String
deriving DecidableEq

/-- Model of pandas `.astype(str)` on one Identification No. cell: a
present string is kept, a missing cell (NaN) becomes the literal string
"nan" (documented pandas behaviour of `str(float(\x27nan\x27))`). -/
def astype_str : Option String → String
  | some s => s
  | none => "nan"

/-- Model of pandas `.str.strip()`: remove surrounding whitespace
(computed on the character list so the kernel can evaluate it). -/
def strip (s : String) : String :=
  String.mk ((s.data.dropWhile Char.isWhitespace).reverse.dropWhile Char.isWhitespace).reverse

/-- Does the string end with the two characters ".0"? -/
def endsWithDotZero (s : String) : Bool :=
  match s.data.reverse with
  | c0 :: c1 :: _ => (c1 == '.') && (c0 == '0')
  | _ => false

/-- Model of `.str.replace(r"\.0$", "", regex=True)`: the pattern is
anchored at the end of the string, so it removes one literal trailing
".0" when present and otherwise leaves the string unchanged. -/
def replace_dot_zero_end (s : String) : String :=
  if endsWithDotZero s then String.mk s.data.dropLast.dropLast else s

/-- The Identification No. pipeline of `load_data` (source steps 1-4):
`.astype(str)`, then `.str.strip()`, then the anchored ".0" removal. -/
def clean_id (c : Option String) : String :=
  replace_dot_zero_end (strip (astype_str c))

/-- Per-row processing of `load_data`: the row is dropped iff its
Timestamp fails to parse (`dropna(subset=["Timestamp"])`); Gate No. is
`pd.to_numeric(...).fillna(0)`; Identification No. goes through
`clean_id`; Name is copied verbatim. -/
def parseRow (r : RawRow) : Option Event :=
  match to_datetime r.timestamp with
  | none => none
  | some t =>
      some { timestamp := t
             gate := (to_numeric r.gate).getD 0
             ident := clean_id r.ident
             name := r.name }

/-- Descending-timestamp order used by
`sort_values(by="Timestamp", ascending=False)`. -/
def tsDesc (a b : Event) : Prop := b.timestamp ≤ a.timestamp

instance : DecidableRel tsDesc :=
  fun a b => inferInstanceAs (Decidable (b.timestamp ≤ a.timestamp))

instance : IsTotal Event tsDesc :=
  ⟨fun a b => le_total b.timestamp a.timestamp⟩

instance : IsTrans Event tsDesc :=
  ⟨fun _ _ _ hab hbc => le_trans hbc hab⟩

/-- The row pipeline of `load_data` after the schema check: convert and
drop rows with unparseable timestamps, then sort by Timestamp
descending. -/
def processRows (rows : List RawRow) : List Event :=
  List.insertionSort tsDesc (rows.filterMap parseRow)

/-- The required columns checked by `load_data`. -/
def requiredCols : List String :=
  ["Timestamp", "Gate No.", "Identification No.", "Name"]

/-- A raw table as returned by a successful `conn.read`: its actual
column names and its rows (restricted to the required fields, which are
only consulted after the schema check passes). -/
structure RawTable where
  cols : List String
  rows : List RawRow

/-- Outcome of the `conn.read` fetch inside the `try` block of
`load_data`: either an exception was raised, or a table came back. -/
inductive FetchResult where
  | failure
  | success (t : RawTable)

/-- What `load_data` delivers to its caller: a DataFrame (here the event
list), or a propagated exception.  The source wraps everything in
`try/except` and returns the default empty DataFrame from the handler,
so `raised` is never produced. -/
inductive LoadResult where
  | ok (events : List Event)
  | raised
deriving DecidableEq

/-- `load_data` (src/mini-thesis-dashboard.py lines 248-339): on any
exception return the default empty DataFrame; on an empty read return
it too; if any required column is missing (`missing_cols` nonempty)
return it as well; otherwise process and sort the rows. -/
def load_data : FetchResult → LoadResult
  | FetchResult.failure => LoadResult.ok []
  | FetchResult.success t =>
      if t.rows.isEmpty then LoadResult.ok []
      else if (requiredCols.filter (fun c => !(t.cols.contains c))).isEmpty then
        LoadResult.ok (processRows t.rows)
      else LoadResult.ok []

/-- The `@st.cache_data(ttl=...)` wrapper around `load_data`: within the
TTL the cached value is served; once expired the function is re-run and
its result replaces the cached value (an exception would leave the old
entry, but `load_data` never raises). -/
def cachedLoad (prev : List Event) (expired : Bool) (fr : FetchResult) : List Event :=
  if expired then
    match load_data fr with
    | LoadResult.ok evs => evs
    | LoadResult.raised => prev
  else prev

/-- `value_counts()` index: the distinct Identification No. values of
the processed frame, i.e. exactly the identities with at least one
occurrence. -/
def uniqueIds (events : List Event) : List String :=
  (events.map Event.ident).dedup

/-- `value_counts()` value: the occurrence count of one identity. -/
def idCount (events : List Event) (i : String) : Nat :=
  (events.map Event.ident).count i

/-- Identities with an odd occurrence count: `(id_counts % 2 != 0)`. -/
def insideIds (events : List Event) : List String :=
  (uniqueIds events).filter (fun i => idCount events i % 2 != 0)

/-- Identities with an even occurrence count: `(id_counts % 2 == 0)`.
Every identity in `uniqueIds` occurs at least once, so these counts are
even and nonzero. -/
def outsideIds (events : List Event) : List String :=
  (uniqueIds events).filter (fun i => idCount events i % 2 == 0)

/-- `time_in_count = (id_counts % 2 != 0).sum()` (line 382). -/
def time_in_count (events : List Event) : Nat :=
  (insideIds events).length

/-- `time_out_count = (id_counts % 2 == 0).sum()` (line 384). -/
def time_out_count (events : List Event) : Nat :=
  (outsideIds events).length

/-- `len(id_counts)` — the "Total Unique Persons" metric (line 450). -/
def total_unique (events : List Event) : Nat :=
  (uniqueIds events).length

/-- C5: identity normalization strips surrounding whitespace and removes
exactly one trailing ".0" and nothing else: "123456.0" normalizes to
"123456", "123456.50" is unchanged, "  42 " normalizes to "42", and any
stripped value not ending in ".0" passes through unchanged. -/
theorem C5_clean_id_normalization :
    clean_id (some ("123456.0")) = ("123456") ∧
    clean_id (some ("123456.50")) = ("123456.50") ∧
    clean_id (some ("  42 ")) = ("42") ∧
    ∀ s : String, endsWithDotZero (strip s) = false → clean_id (some s) = strip s := by
  refine ⟨by decide, by decide, by decide, ?_⟩
  intro s h
  simp [clean_id, astype_str, replace_dot_zero_end, h]

/-- Witness for C5 at the concrete input "badge-7". -/
theorem C5_clean_id_normalization_witness :
    clean_id (some ("badge-7")) = strip ("badge-7") :=
  C5_clean_id_normalization.2.2.2 ("badge-7") (by decide)

/-- A Boolean predicate and its negation split the length of a list. -/
theorem length_filter_split {α : Type} (p : α → Bool) (l : List α) :
    (l.filter p).length + (l.filter (fun a => !(p a))).length = l.length := by
  induction l with
  | nil => rfl
  | cons a l ih =>
      by_cases h : p a = true
      · simp only [List.filter_cons, h, if_pos, Bool.not_true, if_neg, List.length_cons,
          Bool.false_eq_true, not_false_eq_true, ite_false, ite_true]
        omega
      · have hf : p a = false := by
          cases hpa : p a
          · rfl
          · exact absurd hpa h
        simp only [List.filter_cons, hf, Bool.not_false, List.length_cons,
          Bool.false_eq_true, not_false_eq_true, ite_false, ite_true]
        omega

/-- Sample event used in concrete instantiations. -/
def evA (t : Int) : Event :=
  { timestamp := t, gate := 1, ident := "A", name := none }

/-- Second sample event used in concrete instantiations. -/
def evB (t : Int) : Event :=
  { timestamp := t, gate := 2, ident := "B", name := none }

/-- C1: the identities with odd occurrence count plus those with even
(nonzero) occurrence count equal the distinct identities observed; both
counts are nonnegative; and every identity appearing in the counts
mapping has a strictly positive occurrence count (an identity with zero
occurrences never appears in value_counts). -/
theorem C1_occupancy_invariant (events : List Event) :
    time_in_count events + time_out_count events = total_unique events ∧
    0 ≤ time_in_count events ∧ 0 ≤ time_out_count events ∧
    ∀ i ∈ uniqueIds events, 0 < idCount events i := by
  refine ⟨?_, Nat.zero_le _, Nat.zero_le _, ?_⟩
  · have hcongr : outsideIds events
        = (uniqueIds events).filter (fun i => !(idCount events i % 2 != 0)) := by
      unfold outsideIds
      apply List.filter_congr
      intro i _
      simp [bne]
    unfold time_in_count time_out_count total_unique insideIds
    rw [hcongr]
    exact length_filter_split _ _
  · intro i hi
    have hmem : i ∈ events.map Event.ident := by
      unfold uniqueIds at hi
      exact List.mem_dedup.mp hi
    unfold idCount
    exact List.count_pos_iff.mpr hmem

/-- Witness for C1 on a one-event list. -/
theorem C1_occupancy_invariant_witness :
    0 < idCount [evA 1] ("A") :=
  (C1_occupancy_invariant [evA 1]).2.2.2 ("A") (by decide)

/-- C2: for every identity occurring in the input events, it is
classified inside iff its occurrence count is odd, and outside iff its
count is even and nonzero; an identity with exactly one event lands in
the inside class and one with exactly two events in the outside class;
and the scenario of three rows for identity "A" yields total_unique 1,
inside_count 1, outside_count 0. -/
theorem C2_parity_classification :
    (∀ (events : List Event) (i : String), i ∈ events.map Event.ident →
        ((i ∈ insideIds events ↔ idCount events i % 2 = 1) ∧
         (i ∈ outsideIds events ↔ (idCount events i % 2 = 0 ∧ idCount events i ≠ 0)))) ∧
    (∀ (events : List Event) (i : String), idCount events i = 1 → i ∈ insideIds events) ∧
    (∀ (events : List Event) (i : String), idCount events i = 2 → i ∈ outsideIds events) ∧
    (total_unique [evA 1, evA 2, evA 3] = 1 ∧
     time_in_count [evA 1, evA 2, evA 3] = 1 ∧
     time_out_count [evA 1, evA 2, evA 3] = 0) := by
  refine ⟨?_, ?_, ?_, by decide, by decide, by decide⟩
  · intro events i hi
    have hu : i ∈ uniqueIds events := by
      unfold uniqueIds
      exact List.mem_dedup.mpr hi
    have hpos : 0 < idCount events i := by
      unfold idCount
      exact List.count_pos_iff.mpr hi
    constructor
    · unfold insideIds
      rw [List.mem_filter]
      constructor
      · rintro ⟨-, hb⟩
        simp only [bne_iff_ne, ne_eq] at hb
        omega
      · intro hb
        refine ⟨hu, ?_⟩
        simp only [bne_iff_ne, ne_eq]
        omega
    · unfold outsideIds
      rw [List.mem_filter]
      constructor
      · rintro ⟨-, hb⟩
        simp only [beq_iff_eq] at hb
        exact ⟨hb, by omega⟩
      · rintro ⟨hb, -⟩
        refine ⟨hu, ?_⟩
        simp only [beq_iff_eq]
        exact hb
  · intro events i h1
    have hi : i ∈ events.map Event.ident := by
      have hpos : 0 < idCount events i := by omega
      unfold idCount at hpos
      exact List.count_pos_iff.mp hpos
    unfold insideIds
    rw [List.mem_filter]
    refine ⟨by unfold uniqueIds; exact List.mem_dedup.mpr hi, ?_⟩
    rw [h1]
    decide
  · intro events i h2
    have hi : i ∈ events.map Event.ident := by
      have hpos : 0 < idCount events i := by omega
      unfold idCount at hpos
      exact List.count_pos_iff.mp hpos
    unfold outsideIds
    rw [List.mem_filter]
    refine ⟨by unfold uniqueIds; exact List.mem_dedup.mpr hi, ?_⟩
    rw [h2]
    decide

/-- Witness for C2: one event puts "A" inside, two events put "B"
outside. -/
theorem C2_parity_classification_witness :
    ("A" ∈ insideIds [evA 5]) ∧ ("B" ∈ outsideIds [evB 1, evB 2]) :=
  ⟨C2_parity_classification.2.1 [evA 5] ("A") (by decide),
   C2_parity_classification.2.2.1 [evB 1, evB 2] ("B") (by decide)⟩

/-- A row whose Timestamp cell does not parse. -/
def badTsRow : RawRow :=
  { timestamp := TsCell.invalid, gate := GateCell.num 3, ident := some ("9"),
    name := some ("Bob") }

/-- A row with a valid timestamp but a missing Gate No. cell. -/
def missingGateRow : RawRow :=
  { timestamp := TsCell.valid 5, gate := GateCell.missing, ident := some ("7"),
    name := none }

/-- The event produced from `missingGateRow`. -/
def evGate0 : Event :=
  { timestamp := 5, gate := 0, ident := "7", name := none }

/-- C6: a row whose Timestamp fails to parse is dropped entirely and
never appears in the output sequence, and a row with a non-numeric or
missing Gate No. appears in the output with gate 0. -/
theorem C6_row_edge_cases :
    (∀ (l1 l2 : List RawRow) (r : RawRow), to_datetime r.timestamp = none →
        processRows (l1 ++ r :: l2) = processRows (l1 ++ l2)) ∧
    (∀ (r : RawRow) (e : Event), to_numeric r.gate = none → parseRow r = some e →
        e.gate = 0) := by
  constructor
  · intro l1 l2 r hts
    have hnone : parseRow r = none := by
      unfold parseRow
      rw [hts]
    unfold processRows
    rw [List.filterMap_append, List.filterMap_append, List.filterMap_cons_none hnone]
  · intro r e hg hp
    unfold parseRow at hp
    cases hds : to_datetime r.timestamp with
    | none =>
        rw [hds] at hp
        cases hp
    | some t =>
        rw [hds] at hp
        rw [← Option.some.inj hp]
        simp [hg]

/-- Witness for C6: the bad-timestamp row vanishes; the missing-gate row
yields gate 0. -/
theorem C6_row_edge_cases_witness :
    processRows ([] ++ badTsRow :: []) = processRows ([] ++ []) ∧ evGate0.gate = 0 :=
  ⟨C6_row_edge_cases.1 [] [] badTsRow rfl,
   C6_row_edge_cases.2 missingGateRow evGate0 rfl (by decide)⟩

/-- C7: the output of the reader pipeline is sorted by Timestamp
descending, and when the schema check passes but no row survives
timestamp parsing, `load_data` returns the empty sequence (a normal
`ok` result, not an error). -/
theorem C7_sorted_and_empty_ok :
    (∀ rows : List RawRow, List.Sorted tsDesc (processRows rows)) ∧
    (∀ t : RawTable, (∀ c ∈ requiredCols, c ∈ t.cols) →
        (∀ r ∈ t.rows, to_datetime r.timestamp = none) →
        load_data (FetchResult.success t) = LoadResult.ok []) := by
  constructor
  · intro rows
    exact List.sorted_insertionSort tsDesc _
  · intro t hcols hrows
    simp only [load_data]
    by_cases hemp : t.rows.isEmpty = true
    · rw [if_pos hemp]
    · rw [if_neg hemp]
      have hfilter : (requiredCols.filter (fun c => !(t.cols.contains c))).isEmpty = true := by
        have hnil : requiredCols.filter (fun c => !(t.cols.contains c)) = [] := by
          rw [List.filter_eq_nil_iff]
          intro c hc
          have hmem := hcols c hc
          simp [List.elem_eq_mem, hmem]
        rw [hnil]
        rfl
      rw [if_pos hfilter]
      have hnil2 : t.rows.filterMap parseRow = [] := by
        rw [List.filterMap_eq_nil_iff]
        intro r hr
        unfold parseRow
        rw [hrows r hr]
      unfold processRows
      rw [hnil2]
      rfl

/-- Witness for C7 on concrete inputs. -/
theorem C7_sorted_and_empty_ok_witness :
    List.Sorted tsDesc (processRows [missingGateRow, badTsRow]) ∧
    load_data (FetchResult.success { cols := requiredCols, rows := [badTsRow] })
      = LoadResult.ok [] :=
  ⟨C7_sorted_and_empty_ok.1 [missingGateRow, badTsRow],
   C7_sorted_and_empty_ok.2 { cols := requiredCols, rows := [badTsRow] }
     (by decide) (by decide)⟩

/-- C3 counterexample: with a nonempty cached value, an expired TTL and
a failing fetch, the cache ends up holding the empty list — valid
cached data is replaced by empty data — and the failed fetch returns
exactly what a successful read of an empty sheet returns, so the two
are indistinguishable to the caller. -/
theorem C3_counterexample :
    cachedLoad [evA 1] true FetchResult.failure = [] ∧
    ([evA 1] : List Event) ≠ [] ∧
    load_data FetchResult.failure
      = load_data (FetchResult.success { cols := requiredCols, rows := [] }) :=
  ⟨rfl, by decide, rfl⟩

/-- C3 amended: on a failed fetch `load_data` returns the default empty
DataFrame — the same `ok []` that a successful read of an empty sheet
returns — and once the TTL has expired the cache wrapper stores this
empty result in place of whatever was previously cached. -/
theorem C3_failure_yields_empty (prev : List Event) :
    cachedLoad prev true FetchResult.failure = [] ∧
    load_data FetchResult.failure = LoadResult.ok [] ∧
    load_data (FetchResult.success { cols := requiredCols, rows := [] })
      = LoadResult.ok [] :=
  ⟨rfl, rfl, rfl⟩

/-- A table whose schema lacks the required Name column. -/
def missingColTable : RawTable :=
  { cols := ["Timestamp", "Gate No.", "Identification No."],
    rows := [missingGateRow] }

/-- C4 counterexample: with the Name column absent from a nonempty
table, `load_data` surfaces no error at all: it returns the default
empty DataFrame, the very output a successful read of an empty sheet
produces. -/
theorem C4_counterexample :
    load_data (FetchResult.success missingColTable) = LoadResult.ok [] ∧
    load_data (FetchResult.success missingColTable) ≠ LoadResult.raised ∧
    load_data (FetchResult.success { cols := requiredCols, rows := [] })
      = LoadResult.ok [] := by
  refine ⟨by decide, by decide, rfl⟩

/-- C4 amended: whenever a required column is absent from the source
schema, `load_data` silently returns the default empty DataFrame (no
SchemaError is raised or surfaced), an outcome indistinguishable from a
successful fetch of an empty sheet. -/
theorem C4_missing_column_silent_empty (t : RawTable) (c : String)
    (hc : c ∈ requiredCols) (hmiss : c ∉ t.cols) :
    load_data (FetchResult.success t) = LoadResult.ok [] := by
  simp only [load_data]
  by_cases hemp : t.rows.isEmpty = true
  · rw [if_pos hemp]
  · rw [if_neg hemp]
    have hne : ¬((requiredCols.filter (fun x => !(t.cols.contains x))).isEmpty = true) := by
      intro habs
      have hnil : requiredCols.filter (fun x => !(t.cols.contains x)) = [] :=
        List.isEmpty_iff.mp habs
      have hmem : c ∈ requiredCols.filter (fun x => !(t.cols.contains x)) := by
        rw [List.mem_filter]
        refine ⟨hc, ?_⟩
        simp [List.elem_eq_mem, hmiss]
      rw [hnil] at hmem
      cases hmem
    rw [if_neg hne]

/-- Witness for C4 amended at the concrete missing-Name table. -/
theorem C4_missing_column_silent_empty_witness :
    load_data (FetchResult.success missingColTable) = LoadResult.ok [] :=
  C4_missing_column_silent_empty missingColTable ("Name") (by decide) (by decide)

/-- A row with a valid timestamp and a missing Name cell. -/
def noNameRow : RawRow :=
  { timestamp := TsCell.valid 3, gate := GateCell.num 2, ident := some ("77"),
    name := none }

/-- C9 counterexample: a row whose Name cell is missing is processed
into an event whose name is still missing — it does not become the
string "Unknown". -/
theorem C9_counterexample :
    parseRow noNameRow
      = some { timestamp := 3, gate := 2, ident := "77", name := none } ∧
    (none : Option String) ≠ some ("Unknown") :=
  ⟨by decide, by decide⟩

/-- C9 amended: the Name field is passed through verbatim, so a missing
Name value stays missing (NaN) in the output; it is never replaced by
"Unknown". -/
theorem C9_name_verbatim (r : RawRow) (e : Event) (hp : parseRow r = some e) :
    e.name = r.name := by
  unfold parseRow at hp
  cases hds : to_datetime r.timestamp with
  | none =>
      rw [hds] at hp
      cases hp
  | some t =>
      rw [hds] at hp
      rw [← Option.some.inj hp]

/-- Witness for C9 amended at the missing-Name row. -/
theorem C9_name_verbatim_witness :
    ({ timestamp := 3, gate := 2, ident := "77", name := none } : Event).name
      = noNameRow.name :=
  C9_name_verbatim noNameRow
    { timestamp := 3, gate := 2, ident := "77", name := none } (by decide)

/-- C10: a row whose Identification No. cell is missing is retained
(provided its timestamp parses) and its identity_id is the literal
string "nan", the string conversion of the missing value. -/
theorem C10_missing_id_becomes_nan (r : RawRow) (t : Int)
    (hid : r.ident = none) (hts : to_datetime r.timestamp = some t) :
    ∃ e : Event, parseRow r = some e ∧ e.ident = ("nan") := by
  refine ⟨{ timestamp := t, gate := (to_numeric r.gate).getD 0,
            ident := clean_id r.ident, name := r.name }, ?_, ?_⟩
  · unfold parseRow
    rw [hts]
  · rw [hid]
    show clean_id none = ("nan")
    decide

/-- A row with a valid timestamp and a missing Identification No. -/
def noIdRow : RawRow :=
  { timestamp := TsCell.valid 4, gate := GateCell.num 2, ident := none,
    name := some ("Carol") }

/-- Witness for C10 at the missing-identifier row. -/
theorem C10_missing_id_becomes_nan_witness :
    ∃ e : Event, parseRow noIdRow = some e ∧ e.ident = ("nan") :=
  C10_missing_id_becomes_nan noIdRow 4 rfl rfl

/-- Modelled from the spec: the Change-Driven Cache of spec section 4.3.
The marker-comparison polling cache appears only in sibling near
duplicate scripts of this repository that are not under src/ (the
script under src/ uses the TTL decorator modelled by `cachedLoad`), so
its state is modelled from the spec text: a last-modified marker and
the event sequence as of that marker. -/
structure CacheState where
  last_known_marker : Int
  cached_events : List Event

/-- Modelled from the spec: outcome of the expensive full fetch step of
the Change-Driven Cache. -/
inductive FetchOutcome where
  | ok (events : List Event)
  | err

/-- Modelled from the spec: one Checking/Refreshing cycle of the
Change-Driven Cache.  `observed = none` is an unparseable marker,
treated as no newer data; a marker not strictly greater than
`last_known_marker` leaves the state untouched; a failing fetch leaves
the state untouched even after the marker indicated a change; only a
successful fetch replaces marker and events atomically. -/
def cacheStep (st : CacheState) (observed : Option Int) (fetch : FetchOutcome) :
    CacheState :=
  match observed with
  | none => st
  | some m =>
      if m ≤ st.last_known_marker then st
      else
        match fetch with
        | FetchOutcome.err => st
        | FetchOutcome.ok evs => { last_known_marker := m, cached_events := evs }

/-- C8: the cache never replaces `cached_events` when the observed
marker is less than or equal to `last_known_marker`, and never replaces
it when the fetch step fails, even if the marker comparison indicated a
change. -/
theorem C8_cache_preservation :
    (∀ (st : CacheState) (m : Int) (f : FetchOutcome), m ≤ st.last_known_marker →
        cacheStep st (some m) f = st) ∧
    (∀ (st : CacheState) (o : Option Int), cacheStep st o FetchOutcome.err = st) := by
  constructor
  · intro st m f hle
    simp only [cacheStep]
    rw [if_pos hle]
  · intro st o
    cases o with
    | none => rfl
    | some m =>
        simp only [cacheStep]
        by_cases hle : m ≤ st.last_known_marker
        · rw [if_pos hle]
        · rw [if_neg hle]

/-- Witness for C8 at a concrete state: a stale marker and a failing
fetch both leave the cache untouched. -/
theorem C8_cache_preservation_witness :
    cacheStep { last_known_marker := 10, cached_events := [evA 1] } (some 5)
        (FetchOutcome.ok []) = { last_known_marker := 10, cached_events := [evA 1] } ∧
    cacheStep { last_known_marker := 10, cached_events := [evA 1] } (some 99)
        FetchOutcome.err = { last_known_marker := 10, cached_events := [evA 1] } :=
  ⟨C8_cache_preservation.1 { last_known_marker := 10, cached_events := [evA 1] } 5
      (FetchOutcome.ok []) (by decide),
   C8_cache_preservation.2 { last_known_marker := 10, cached_events := [evA 1] }
      (some 99)⟩

end Attendance
